import Mathlib

/-!
Verification of the Clinical Data Review & Audit workflow of the MediCase
repository.

The definitions below are a shallow embedding of the TypeScript source:

* `src/frontend/src/types/document.ts` — the `MedicalEntity` and
  `ClinicalDate` record types;
* `EditableEntity` (src/unnamed/part_011) — `handleSave`, `handleRevert`;
* `src/frontend/src/components/editing/EditableClinicalDate.tsx` —
  `handleSave`, `handleRevert` for clinical dates;
* `DataReviewDashboard` (src/unnamed/part_013) — the filtered review views,
  `handleBulkApprove`, `handleBulkReject` and the per-item delete handlers;
* `src/frontend/src/components/qa/QualityControlWorkflow.tsx` —
  `handleAdvanceStage`, `criticalIssues` and the advance/final-approval
  button gating;
* `EditHistoryComponent` (src/frontend/src/components/dashboard/StatCard.tsx,
  second file in the bundle) — `groupedLogs` and the day/time sorting.

Modelling conventions:

* TypeScript string-literal union types (`review_status`, entity `type`,
  QA stage names, severities) are modelled as `String`; optional fields
  (`original_text?`, `edited_by?`, ...) as `Option String`.
* JavaScript truthiness on an optional string (`if (entity.original_text)`)
  is `strTruthy`: `none` and `some ""` are falsy, everything else truthy.
* `number` confidence scores are modelled as `ℚ`; the literals `0.7` and
  `0.9` become `7/10` and `9/10`.
* An update object `Partial<MedicalEntity>` is a record of `Option` fields,
  all defaulting to `none`; spread-then-override (`{...edited, f: v}`)
  becomes a structure update.
* A JavaScript `Promise` outcome of a callback is an explicit `Bool`
  (`updateSucceeds`); a rejected `await` aborts the rest of the handler.
* Timestamps handed to `new Date(...)` are modelled by their epoch value in
  milliseconds (`Int`); the viewer's local calendar day (`toDateString`)
  is `localDay`, floor division after adding the viewer's UTC offset, and
  re-parsing the produced day string (`new Date(dateKey).getTime()`) is
  `dayStart`, local midnight of that day.
* `Array.prototype.sort` with a numeric comparator is modelled by the
  stable insertion sort `sortByDesc` on the key the comparator reads.
-/

/-- JavaScript truthiness of an optional string: `undefined` and the empty
string are falsy. -/
def strTruthy : Option String → Bool
  | none => false
  | some s => s ≠ ""

/-- JavaScript `a || b` for an optional string `a`: falls back to `b` when
`a` is `undefined` or empty. -/
def jsOrElse (a : Option String) (b : String) : String :=
  match a with
  | none => b
  | some s => if s = "" then b else s

/-- JavaScript `s.includes(sub)`: substring containment. -/
def strIncludes (s sub : String) : Bool :=
  decide (sub.toList <:+: s.toList)

/-- Record type `MedicalEntity` from `src/frontend/src/types/document.ts`. -/
structure MedicalEntity where
  id : String
  type : String
  text : String
  icd10_code : Option String
  confidence : ℚ
  page : Nat
  position : ℚ × ℚ
  manual_review_required : Bool
  edited_by : Option String
  edited_at : Option String
  original_text : Option String
  review_status : String
deriving DecidableEq

/-- Record type `ClinicalDate` from `src/frontend/src/types/document.ts`. -/
structure ClinicalDate where
  id : String
  date : String
  event_type : String
  description : String
  confidence : ℚ
  original_date : Option String
  edited_by : Option String
  edited_at : Option String
  review_status : String
deriving DecidableEq

/-- A `Partial<MedicalEntity>` update payload: every field optional,
absent (`none`) by default. -/
structure MedicalEntityUpdate where
  id : Option String := none
  type : Option String := none
  text : Option String := none
  icd10_code : Option String := none
  confidence : Option ℚ := none
  page : Option Nat := none
  position : Option (ℚ × ℚ) := none
  manual_review_required : Option Bool := none
  edited_by : Option String := none
  edited_at : Option String := none
  original_text : Option String := none
  review_status : Option String := none
deriving DecidableEq

/-- A `Partial<ClinicalDate>` update payload. -/
structure ClinicalDateUpdate where
  id : Option String := none
  date : Option String := none
  event_type : Option String := none
  description : Option String := none
  confidence : Option ℚ := none
  original_date : Option String := none
  edited_by : Option String := none
  edited_at : Option String := none
  review_status : Option String := none
deriving DecidableEq

/-- Function `EditableEntity.handleSave` (src/unnamed/part_011, lines 26–40): the
update payload passed to `onUpdate`.  The spread of the form state
`editedEntity` is overridden by the four explicit fields; in particular
`original_text` is set to the current `entity.text` unconditionally.
`now` stands for `new Date().toISOString()`. -/
def EditableEntity.handleSave (entity : MedicalEntity)
    (editedEntity : MedicalEntityUpdate) (now : String) : MedicalEntityUpdate :=
  { editedEntity with
      edited_at := some now
      edited_by := some "current-user-id"
      original_text := some entity.text
      review_status := some "approved" }

/-- Function `EditableEntity.handleRevert` (src/unnamed/part_011, lines 47–54):
issues one update when `entity.original_text` is truthy, none otherwise. -/
def EditableEntity.handleRevert (entity : MedicalEntity) :
    Option MedicalEntityUpdate :=
  if strTruthy entity.original_text then
    some { text := entity.original_text, review_status := some "pending" }
  else
    none

/-- Function `EditableClinicalDate.handleSave`
(EditableClinicalDate.tsx, lines 31–46).  `selectedDate` stands for
`selectedDate?.toISOString().split('T')[0]` (the picked day, if any);
the `||` fallback to `clinicalDate.date` is `jsOrElse`. -/
def EditableClinicalDate.handleSave (clinicalDate : ClinicalDate)
    (editedDate : ClinicalDateUpdate) (selectedDate : Option String)
    (now : String) : ClinicalDateUpdate :=
  { editedDate with
      date := some (jsOrElse selectedDate clinicalDate.date)
      edited_at := some now
      edited_by := some "current-user-id"
      original_date := some clinicalDate.date
      review_status := some "approved" }

/-- Function `EditableClinicalDate.handleRevert`
(EditableClinicalDate.tsx, lines 48–56). -/
def EditableClinicalDate.handleRevert (clinicalDate : ClinicalDate) :
    Option ClinicalDateUpdate :=
  if strTruthy clinicalDate.original_date then
    some { date := clinicalDate.original_date, review_status := some "pending" }
  else
    none

/-- C4 — Edit postcondition: for every entity, saving an edit produces an
update that stamps `edited_at` (the save-time timestamp) and `edited_by`
(the current user id), carries the pre-edit current value `entity.text` as
`original_text`, and forces `review_status` to `"approved"`; the spec's
example (text `"Hypertension"` edited to `"Essential Hypertension"`) is an
instance, since the payload's `text` is the form state's text and
`original_text` is the pre-edit `entity.text`. -/
theorem editable_entity_save_postcondition
    (entity : MedicalEntity) (editedEntity : MedicalEntityUpdate)
    (now : String) :
    (EditableEntity.handleSave entity editedEntity now).edited_at = some now ∧
    (EditableEntity.handleSave entity editedEntity now).edited_by =
      some "current-user-id" ∧
    (EditableEntity.handleSave entity editedEntity now).original_text =
      some entity.text ∧
    (EditableEntity.handleSave entity editedEntity now).review_status =
      some "approved" ∧
    (EditableEntity.handleSave entity editedEntity now).text =
      editedEntity.text := by
  refine ⟨rfl, rfl, rfl, rfl, rfl⟩

/-- C1 — the code violates original-value preservation: for an entity
whose `original_text` is already set (here `some "Hypertension"` after a
first edit), a second save produces a payload that sets `original_text`
to the current, already-edited text `"Essential Hypertension"`,
overwriting the preserved first original instead of leaving it alone.
The save handler sets `original_text: entity.text` unconditionally. -/
theorem handleSave_overwrites_set_original :
    ({ id := "ent-1", type := "diagnosis", text := "Essential Hypertension",
       icd10_code := some "I10", confidence := 13/20, page := 2,
       position := (0, 0), manual_review_required := false,
       edited_by := some "current-user-id",
       edited_at := some "2026-01-01T00:00:00.000Z",
       original_text := some "Hypertension",
       review_status := "approved" } : MedicalEntity).original_text =
      some "Hypertension" ∧
    (EditableEntity.handleSave
      { id := "ent-1", type := "diagnosis", text := "Essential Hypertension",
        icd10_code := some "I10", confidence := 13/20, page := 2,
        position := (0, 0), manual_review_required := false,
        edited_by := some "current-user-id",
        edited_at := some "2026-01-01T00:00:00.000Z",
        original_text := some "Hypertension",
        review_status := "approved" }
      { text := some "Benign Essential Hypertension" }
      "2026-01-02T00:00:00.000Z").original_text =
      some "Essential Hypertension" := by
  refine ⟨rfl, rfl⟩

/-- C3 counterexample — the claim as stated fails: this entity's
`original_text` is set (non-null, namely `some ""`), yet the revert handler
issues no update at all, because the JavaScript guard
`if (entity.original_text)` treats the empty string as falsy. -/
theorem revert_ignores_empty_original :
    ({ id := "ent-2", type := "symptom", text := "pain",
       icd10_code := none, confidence := 1/2, page := 1,
       position := (0, 0), manual_review_required := false,
       edited_by := some "current-user-id",
       edited_at := some "2026-01-01T00:00:00.000Z",
       original_text := some "",
       review_status := "approved" } : MedicalEntity).original_text ≠
      none ∧
    EditableEntity.handleRevert
      { id := "ent-2", type := "symptom", text := "pain",
        icd10_code := none, confidence := 1/2, page := 1,
        position := (0, 0), manual_review_required := false,
        edited_by := some "current-user-id",
        edited_at := some "2026-01-01T00:00:00.000Z",
        original_text := some "",
        review_status := "approved" } = none := by
  refine ⟨by simp [strTruthy], rfl⟩

/-- C3 (amended) — Revert restores and resets: for an entity (resp.
clinical date) whose `original_text` (resp. `original_date`) is set to a
non-empty string, revert issues exactly one update setting the editable
field to that original value and `review_status` to `"pending"`, while the
payload omits `original_text` (resp. `original_date`), leaving it
unchanged; when the original value is absent — or the empty string, which
the truthiness guard treats as unset — revert issues no update at all. -/
theorem revert_restores_and_resets
    (entity : MedicalEntity) (clinicalDate : ClinicalDate) :
    (∀ s : String, entity.original_text = some s → s ≠ "" →
      EditableEntity.handleRevert entity =
        some { text := some s, review_status := some "pending" }) ∧
    (entity.original_text = none ∨ entity.original_text = some "" →
      EditableEntity.handleRevert entity = none) ∧
    (∀ s : String, clinicalDate.original_date = some s → s ≠ "" →
      EditableClinicalDate.handleRevert clinicalDate =
        some { date := some s, review_status := some "pending" }) ∧
    (clinicalDate.original_date = none ∨ clinicalDate.original_date = some "" →
      EditableClinicalDate.handleRevert clinicalDate = none) := by
  refine ⟨?_, ?_, ?_, ?_⟩
  · intro s hs hne
    simp [EditableEntity.handleRevert, strTruthy, hs, hne]
  · rintro (h | h) <;> simp [EditableEntity.handleRevert, strTruthy, h]
  · intro s hs hne
    simp [EditableClinicalDate.handleRevert, strTruthy, hs, hne]
  · rintro (h | h) <;> simp [EditableClinicalDate.handleRevert, strTruthy, h]

/-- C3 witness — the amended theorem applied to a concrete edited entity
(original `"Hypertension"`) and a concrete never-edited clinical date. -/
theorem revert_restores_and_resets_witness :
    EditableEntity.handleRevert
      { id := "ent-3", type := "diagnosis", text := "Essential Hypertension",
        icd10_code := none, confidence := 13/20, page := 1,
        position := (0, 0), manual_review_required := false,
        edited_by := some "current-user-id",
        edited_at := some "2026-01-01T00:00:00.000Z",
        original_text := some "Hypertension",
        review_status := "approved" } =
      some { text := some "Hypertension", review_status := some "pending" } ∧
    EditableClinicalDate.handleRevert
      { id := "date-3", date := "2024-05-01", event_type := "mri",
        description := "cervical MRI", confidence := 4/5,
        original_date := none, edited_by := none, edited_at := none,
        review_status := "pending" } = none := by
  refine ⟨?_, ?_⟩
  · exact (revert_restores_and_resets
      { id := "ent-3", type := "diagnosis", text := "Essential Hypertension",
        icd10_code := none, confidence := 13/20, page := 1,
        position := (0, 0), manual_review_required := false,
        edited_by := some "current-user-id",
        edited_at := some "2026-01-01T00:00:00.000Z",
        original_text := some "Hypertension",
        review_status := "approved" }
      { id := "date-3", date := "2024-05-01", event_type := "mri",
        description := "cervical MRI", confidence := 4/5,
        original_date := none, edited_by := none, edited_at := none,
        review_status := "pending" }).1 "Hypertension" rfl (by decide)
  · exact (revert_restores_and_resets
      { id := "ent-3", type := "diagnosis", text := "Essential Hypertension",
        icd10_code := none, confidence := 13/20, page := 1,
        position := (0, 0), manual_review_required := false,
        edited_by := some "current-user-id",
        edited_at := some "2026-01-01T00:00:00.000Z",
        original_text := some "Hypertension",
        review_status := "approved" }
      { id := "date-3", date := "2024-05-01", event_type := "mri",
        description := "cervical MRI", confidence := 4/5,
        original_date := none, edited_by := none, edited_at := none,
        review_status := "pending" }).2.2.2 (Or.inl rfl)

/-- One per-entity target update of a `BulkUpdateRequest`
(src/unnamed/part_013, lines 20–23). -/
structure EntityTargetUpdate where
  id : String
  updates : MedicalEntityUpdate
deriving DecidableEq

/-- One per-date target update of a `BulkUpdateRequest`. -/
structure DateTargetUpdate where
  id : String
  updates : ClinicalDateUpdate
deriving DecidableEq

/-- Record type `BulkUpdateRequest` (src/unnamed/part_013, lines 20–23). -/
structure BulkUpdateRequest where
  entityUpdates : List EntityTargetUpdate
  dateUpdates : List DateTargetUpdate
deriving DecidableEq

/-- The `onDelete` handler the review dashboard passes to `EditableEntity`
(src/unnamed/part_013, lines 274–279): one bulk update whose single target
carries only `review_status: 'rejected'`. -/
def DataReviewDashboard.entityDelete (id : String) : BulkUpdateRequest :=
  { entityUpdates := [{ id := id, updates := { review_status := some "rejected" } }],
    dateUpdates := [] }

/-- The `onDelete` handler the review dashboard passes to
`EditableClinicalDate` (src/unnamed/part_013, lines 319–324). -/
def DataReviewDashboard.dateDelete (id : String) : BulkUpdateRequest :=
  { entityUpdates := [],
    dateUpdates := [{ id := id, updates := { review_status := some "rejected" } }] }

/-- C7 — Deletion-as-rejection on the review surface: for every entity or
clinical date id, the dashboard's delete handler issues a bulk update whose
single target update carries `review_status = "rejected"` and nothing else
— every other field of the payload is absent (`none`), so no other field
of the record is modified, and no row deletion is requested (the only
channel used is `onBulkUpdate`, whose request type has no delete part). -/
theorem dashboard_delete_is_rejection (id : String) :
    (DataReviewDashboard.entityDelete id).entityUpdates =
      [{ id := id,
         updates := { id := none, type := none, text := none,
                      icd10_code := none, confidence := none, page := none,
                      position := none, manual_review_required := none,
                      edited_by := none, edited_at := none,
                      original_text := none,
                      review_status := some "rejected" } }] ∧
    (DataReviewDashboard.entityDelete id).dateUpdates = [] ∧
    (DataReviewDashboard.dateDelete id).dateUpdates =
      [{ id := id,
         updates := { id := none, date := none, event_type := none,
                      description := none, confidence := none,
                      original_date := none, edited_by := none,
                      edited_at := none,
                      review_status := some "rejected" } }] ∧
    (DataReviewDashboard.dateDelete id).entityUpdates = [] := by
  refine ⟨rfl, rfl, rfl, rfl⟩

/-- The dashboard's selection state (src/unnamed/part_013, lines 32–33):
the two JavaScript `Set<string>`s of selected entity and date ids,
modelled as duplicate-free id lists. -/
structure ReviewSelection where
  selectedEntities : List String
  selectedDates : List String
deriving DecidableEq

/-- Function `DataReviewDashboard.handleBulkApprove` (src/unnamed/part_013, lines
75–93): builds one batched request from the current selection and awaits
`onBulkUpdate`.  `updateSucceeds` is the outcome of that promise: when it
rejects, the `await` re-throws before the two `setSelected...(new Set())`
calls run, so the selection state is left unchanged; when it resolves,
both selection sets are cleared.  Exactly one request is issued either
way. -/
def DataReviewDashboard.handleBulkApprove (entities : List MedicalEntity)
    (clinicalDates : List ClinicalDate) (sel : ReviewSelection)
    (updateSucceeds : Bool) : BulkUpdateRequest × ReviewSelection :=
  let entityUpdates :=
    (entities.filter (fun e => e.id ∈ sel.selectedEntities)).map
      (fun e => { id := e.id,
                  updates := { review_status := some "approved" } })
  let dateUpdates :=
    (clinicalDates.filter (fun d => d.id ∈ sel.selectedDates)).map
      (fun d => ({ id := d.id,
                   updates := { review_status := some "approved" } } :
                  DateTargetUpdate))
  ({ entityUpdates := entityUpdates, dateUpdates := dateUpdates },
   if updateSucceeds then { selectedEntities := [], selectedDates := [] }
   else sel)

/-- Function `DataReviewDashboard.handleBulkReject` (src/unnamed/part_013, lines
95–113): identical to bulk approve with `review_status: 'rejected'`. -/
def DataReviewDashboard.handleBulkReject (entities : List MedicalEntity)
    (clinicalDates : List ClinicalDate) (sel : ReviewSelection)
    (updateSucceeds : Bool) : BulkUpdateRequest × ReviewSelection :=
  let entityUpdates :=
    (entities.filter (fun e => e.id ∈ sel.selectedEntities)).map
      (fun e => { id := e.id,
                  updates := { review_status := some "rejected" } })
  let dateUpdates :=
    (clinicalDates.filter (fun d => d.id ∈ sel.selectedDates)).map
      (fun d => ({ id := d.id,
                   updates := { review_status := some "rejected" } } :
                  DateTargetUpdate))
  ({ entityUpdates := entityUpdates, dateUpdates := dateUpdates },
   if updateSucceeds then { selectedEntities := [], selectedDates := [] }
   else sel)

/-- Counting a filter by key membership: if the keys of `l` are
duplicate-free and `sel` is a duplicate-free list of keys occurring in
`l`, then filtering `l` by key membership in `sel` keeps exactly
`sel.length` elements. -/
theorem length_filter_key_mem {α : Type} (key : α → String) :
    ∀ (l : List α) (sel : List String), (l.map key).Nodup → sel.Nodup →
      (∀ i ∈ sel, i ∈ l.map key) →
      (l.filter (fun x => key x ∈ sel)).length = sel.length := by
  intro l
  induction l with
  | nil =>
      intro sel _ _ hsub
      have : sel = [] := by
        cases sel with
        | nil => rfl
        | cons a t => exact absurd (hsub a (List.mem_cons_self a t)) (by simp)
      simp [this]
  | cons a t ih =>
      intro sel hl hsel hsub
      rw [List.map_cons, List.nodup_cons] at hl
      by_cases ha : key a ∈ sel
      · have hfe : t.filter (fun x => decide (key x ∈ sel)) =
            t.filter (fun x => decide (key x ∈ sel.erase (key a))) := by
          apply List.filter_congr
          intro x hx
          have hxa : key x ≠ key a := by
            intro h
            exact hl.1 (h ▸ List.mem_map_of_mem key hx)
          simp [List.Nodup.mem_erase_iff hsel, hxa]
        have hsub2 : ∀ i ∈ sel.erase (key a), i ∈ t.map key := by
          intro i hi
          rcases (List.Nodup.mem_erase_iff hsel).mp hi with ⟨hne, hmem⟩
          rcases List.mem_cons.mp (hsub i hmem) with h | h
          · exact absurd h hne
          · exact h
        have hrec := ih (sel.erase (key a)) hl.2 (hsel.erase (key a)) hsub2
        have hpos : 1 ≤ sel.length := List.length_pos_of_mem ha
        simp only [List.filter_cons, ha, decide_eq_true_eq, if_pos]
        rw [List.length_cons, hfe, hrec, List.length_erase_of_mem ha]
        omega
      · have hsub2 : ∀ i ∈ sel, i ∈ t.map key := by
          intro i hi
          rcases List.mem_cons.mp (hsub i hi) with h | h
          · exact absurd (h ▸ hi) ha
          · exact h
        have hrec := ih sel hl.2 hsel hsub2
        simpa [List.filter_cons, ha] using hrec

/-- A concrete entity and clinical date used to exercise the bulk
handlers. -/
def sampleBulkEntity : MedicalEntity :=
  { id := "e-1", type := "medication", text := "Lisinopril 10mg",
    icd10_code := none, confidence := 9/10, page := 3, position := (0, 0),
    manual_review_required := false, edited_by := none, edited_at := none,
    original_text := none, review_status := "pending" }

def sampleBulkDate : ClinicalDate :=
  { id := "d-1", date := "2024-02-14", event_type := "surgery",
    description := "lumbar fusion", confidence := 3/4,
    original_date := none, edited_by := none, edited_at := none,
    review_status := "pending" }

/-- C6 counterexample — the claim as stated fails on the failure path:
with one selected entity and a rejected `onBulkUpdate` promise, the
handler issues the single batched one-update request, but the rejection
propagates out of `handleBulkApprove` before the clearing calls run, so
the selection set is NOT cleared (the claim requires clearing whether the
request succeeds or fails). -/
theorem bulk_approve_failure_keeps_selection :
    (DataReviewDashboard.handleBulkApprove [sampleBulkEntity] []
      { selectedEntities := ["e-1"], selectedDates := [] }
      false).1.entityUpdates.length = 1 ∧
    (DataReviewDashboard.handleBulkApprove [sampleBulkEntity] []
      { selectedEntities := ["e-1"], selectedDates := [] }
      false).2.selectedEntities = ["e-1"] ∧
    (["e-1"] : List String) ≠ [] := by
  refine ⟨rfl, rfl, by decide⟩

/-- C6 (amended) — Bulk action atomicity-of-intent: for every selection of
N item identifiers (a duplicate-free subset of the provided entity and
date ids, themselves duplicate-free), bulk approve (resp. bulk reject)
issues exactly one batched `onBulkUpdate` request containing exactly N
per-item target updates, each carrying only `review_status = "approved"`
(resp. `"rejected"`); the selection sets are cleared when the batched
request succeeds, while a rejected request propagates its failure and
leaves the selection sets unchanged. -/
theorem bulk_actions_batch_and_clear
    (entities : List MedicalEntity) (clinicalDates : List ClinicalDate)
    (sel : ReviewSelection) (updateSucceeds : Bool)
    (hent : (entities.map MedicalEntity.id).Nodup)
    (hdate : (clinicalDates.map ClinicalDate.id).Nodup)
    (hselE : sel.selectedEntities.Nodup) (hselD : sel.selectedDates.Nodup)
    (hsubE : ∀ i ∈ sel.selectedEntities, i ∈ entities.map MedicalEntity.id)
    (hsubD : ∀ i ∈ sel.selectedDates, i ∈ clinicalDates.map ClinicalDate.id) :
    ((DataReviewDashboard.handleBulkApprove entities clinicalDates sel
        updateSucceeds).1.entityUpdates.length +
      (DataReviewDashboard.handleBulkApprove entities clinicalDates sel
        updateSucceeds).1.dateUpdates.length =
      sel.selectedEntities.length + sel.selectedDates.length) ∧
    (∀ u ∈ (DataReviewDashboard.handleBulkApprove entities clinicalDates sel
        updateSucceeds).1.entityUpdates,
      u.updates = { review_status := some "approved" }) ∧
    (∀ u ∈ (DataReviewDashboard.handleBulkApprove entities clinicalDates sel
        updateSucceeds).1.dateUpdates,
      u.updates = { review_status := some "approved" }) ∧
    (updateSucceeds = true →
      (DataReviewDashboard.handleBulkApprove entities clinicalDates sel
        updateSucceeds).2 = { selectedEntities := [], selectedDates := [] }) ∧
    (updateSucceeds = false →
      (DataReviewDashboard.handleBulkApprove entities clinicalDates sel
        updateSucceeds).2 = sel) ∧
    ((DataReviewDashboard.handleBulkReject entities clinicalDates sel
        updateSucceeds).1.entityUpdates.length +
      (DataReviewDashboard.handleBulkReject entities clinicalDates sel
        updateSucceeds).1.dateUpdates.length =
      sel.selectedEntities.length + sel.selectedDates.length) ∧
    (∀ u ∈ (DataReviewDashboard.handleBulkReject entities clinicalDates sel
        updateSucceeds).1.entityUpdates,
      u.updates = { review_status := some "rejected" }) ∧
    (∀ u ∈ (DataReviewDashboard.handleBulkReject entities clinicalDates sel
        updateSucceeds).1.dateUpdates,
      u.updates = { review_status := some "rejected" }) ∧
    (updateSucceeds = true →
      (DataReviewDashboard.handleBulkReject entities clinicalDates sel
        updateSucceeds).2 = { selectedEntities := [], selectedDates := [] }) ∧
    (updateSucceeds = false →
      (DataReviewDashboard.handleBulkReject entities clinicalDates sel
        updateSucceeds).2 = sel) := by
  have hcountE := length_filter_key_mem MedicalEntity.id entities
    sel.selectedEntities hent hselE hsubE
  have hcountD := length_filter_key_mem ClinicalDate.id clinicalDates
    sel.selectedDates hdate hselD hsubD
  refine ⟨?_, ?_, ?_, ?_, ?_, ?_, ?_, ?_, ?_, ?_⟩
  · simp [DataReviewDashboard.handleBulkApprove, hcountE, hcountD]
  · intro u hu
    simp only [DataReviewDashboard.handleBulkApprove, List.mem_map] at hu
    rcases hu with ⟨e, _, he⟩
    exact he ▸ rfl
  · intro u hu
    simp only [DataReviewDashboard.handleBulkApprove, List.mem_map] at hu
    rcases hu with ⟨d, _, hd⟩
    exact hd ▸ rfl
  · intro h; simp [DataReviewDashboard.handleBulkApprove, h]
  · intro h; simp [DataReviewDashboard.handleBulkApprove, h]
  · simp [DataReviewDashboard.handleBulkReject, hcountE, hcountD]
  · intro u hu
    simp only [DataReviewDashboard.handleBulkReject, List.mem_map] at hu
    rcases hu with ⟨e, _, he⟩
    exact he ▸ rfl
  · intro u hu
    simp only [DataReviewDashboard.handleBulkReject, List.mem_map] at hu
    rcases hu with ⟨d, _, hd⟩
    exact hd ▸ rfl
  · intro h; simp [DataReviewDashboard.handleBulkReject, h]
  · intro h; simp [DataReviewDashboard.handleBulkReject, h]

/-- C6 witness — the amended theorem at one selected entity plus one
selected date and a resolving request: the batch has 1 + 1 = 2 target
updates and the selection is cleared. -/
theorem bulk_actions_batch_and_clear_witness :
    ((DataReviewDashboard.handleBulkApprove [sampleBulkEntity]
        [sampleBulkDate]
        { selectedEntities := ["e-1"], selectedDates := ["d-1"] }
        true).1.entityUpdates.length +
      (DataReviewDashboard.handleBulkApprove [sampleBulkEntity]
        [sampleBulkDate]
        { selectedEntities := ["e-1"], selectedDates := ["d-1"] }
        true).1.dateUpdates.length = 2) ∧
    (DataReviewDashboard.handleBulkApprove [sampleBulkEntity]
        [sampleBulkDate]
        { selectedEntities := ["e-1"], selectedDates := ["d-1"] }
        true).2 = { selectedEntities := [], selectedDates := [] } := by
  have h := bulk_actions_batch_and_clear [sampleBulkEntity] [sampleBulkDate]
    { selectedEntities := ["e-1"], selectedDates := ["d-1"] } true
    (by decide) (by decide) (by decide) (by decide)
    (by intro i hi; simpa [sampleBulkEntity] using hi)
    (by intro i hi; simpa [sampleBulkDate] using hi)
  exact ⟨h.1, h.2.2.2.1 rfl⟩

/-- The dashboard's filter state (src/unnamed/part_013, lines 34–39). -/
structure ReviewFilters where
  confidence : String
  reviewStatus : String
  entityType : String
  searchText : String
deriving DecidableEq

/-- The entity filter of the review dashboard's `useMemo`
(src/unnamed/part_013, lines 43–55), clause for clause: confidence bucket
(`low` means `< 0.7`, `high` means `≥ 0.9`), review status, entity type,
then case-insensitive free-text search on `text`. -/
def entityPassesFilters (filters : ReviewFilters) (entity : MedicalEntity) :
    Bool :=
  let threshold : ℚ := if filters.confidence = "low" then 7/10 else 9/10
  if filters.confidence ≠ "all" ∧ filters.confidence = "low" ∧
      threshold ≤ entity.confidence then false
  else if filters.confidence ≠ "all" ∧ filters.confidence = "high" ∧
      entity.confidence < threshold then false
  else if filters.reviewStatus ≠ "all" ∧
      entity.review_status ≠ filters.reviewStatus then false
  else if filters.entityType ≠ "all" ∧
      entity.type ≠ filters.entityType then false
  else if filters.searchText ≠ "" ∧
      ¬ strIncludes entity.text.toLower filters.searchText.toLower then false
  else true

/-- The clinical-date filter (src/unnamed/part_013, lines 57–61): dates
are only filtered by review status and free-text search on the
description (not by confidence or entity type). -/
def datePassesFilters (filters : ReviewFilters) (date : ClinicalDate) :
    Bool :=
  if filters.reviewStatus ≠ "all" ∧
      date.review_status ≠ filters.reviewStatus then false
  else if filters.searchText ≠ "" ∧
      ¬ strIncludes date.description.toLower filters.searchText.toLower then
    false
  else true

/-- An element of the dashboard's combined `allData` list: a filtered
entity tagged `isEntity: true` or a filtered date tagged
`isEntity: false` (the tag is the constructor). -/
inductive ReviewItem where
  | entityItem (e : MedicalEntity)
  | dateItem (d : ClinicalDate)
deriving DecidableEq

/-- Projection `item.review_status` of a combined item. -/
def ReviewItem.review_status : ReviewItem → String
  | .entityItem e => e.review_status
  | .dateItem d => d.review_status

/-- Projection `item.confidence` of a combined item. -/
def ReviewItem.confidence : ReviewItem → ℚ
  | .entityItem e => e.confidence
  | .dateItem d => d.confidence

/-- List `allData` (src/unnamed/part_013, lines 63–66): the filtered entities
followed by the filtered dates. -/
def allData (filters : ReviewFilters) (entities : List MedicalEntity)
    (clinicalDates : List ClinicalDate) : List ReviewItem :=
  (entities.filter (entityPassesFilters filters)).map ReviewItem.entityItem ++
    (clinicalDates.filter (datePassesFilters filters)).map ReviewItem.dateItem

/-- The three derived views returned by the dashboard's `useMemo`. -/
structure ReviewViews where
  pendingReview : List ReviewItem
  lowConfidence : List ReviewItem
  reviewedItems : List ReviewItem
deriving DecidableEq

/-- The `useMemo` body (src/unnamed/part_013, lines 42–73): all three
views are filters of the same `allData`. -/
def dashboardViews (filters : ReviewFilters) (entities : List MedicalEntity)
    (clinicalDates : List ClinicalDate) : ReviewViews :=
  let ad := allData filters entities clinicalDates
  { pendingReview := ad.filter (fun item => item.review_status = "pending")
    lowConfidence := ad.filter (fun item => item.confidence < 7/10)
    reviewedItems := ad.filter (fun item => item.review_status ≠ "pending") }

/-- The no-op filter state the dashboard starts from
(src/unnamed/part_013, lines 34–39). -/
def allFilters : ReviewFilters :=
  { confidence := "all", reviewStatus := "all", entityType := "all",
    searchText := "" }

/-- C5 counterexample — the three views are not pairwise disjoint: a
single pending entity with confidence 0.5 appears in both `pendingReview`
(status is pending) and `lowConfidence` (confidence below 0.7 regardless
of status). -/
theorem review_views_not_disjoint :
    ReviewItem.entityItem
      { id := "ent-5", type := "diagnosis", text := "Disc herniation",
        icd10_code := none, confidence := 1/2, page := 1, position := (0, 0),
        manual_review_required := true, edited_by := none, edited_at := none,
        original_text := none, review_status := "pending" } ∈
      (dashboardViews allFilters
        [{ id := "ent-5", type := "diagnosis", text := "Disc herniation",
           icd10_code := none, confidence := 1/2, page := 1,
           position := (0, 0), manual_review_required := true,
           edited_by := none, edited_at := none, original_text := none,
           review_status := "pending" }] []).pendingReview ∧
    ReviewItem.entityItem
      { id := "ent-5", type := "diagnosis", text := "Disc herniation",
        icd10_code := none, confidence := 1/2, page := 1, position := (0, 0),
        manual_review_required := true, edited_by := none, edited_at := none,
        original_text := none, review_status := "pending" } ∈
      (dashboardViews allFilters
        [{ id := "ent-5", type := "diagnosis", text := "Disc herniation",
           icd10_code := none, confidence := 1/2, page := 1,
           position := (0, 0), manual_review_required := true,
           edited_by := none, edited_at := none, original_text := none,
           review_status := "pending" }] []).lowConfidence := by
  constructor <;>
    norm_num [dashboardViews, allData, entityPassesFilters, allFilters,
      ReviewItem.review_status, ReviewItem.confidence]

/-- C5 (amended) — Filter consistency of the review views: for every list
of entities, list of clinical dates, and filter specification, all three
views are computed from the same filtered subset `allData` (so changing
only the `entityType` filter changes all three consistently with the new
subset): `pendingReview` and `reviewedItems` are disjoint and together are
exactly a permutation of the filtered subset, and `lowConfidence` consists
of exactly the members of that same subset with confidence below 0.7,
independent of status — hence it may overlap the other two views, which is
the one part of the original claim that fails. -/
theorem review_views_from_common_subset
    (filters : ReviewFilters) (entities : List MedicalEntity)
    (clinicalDates : List ClinicalDate) :
    List.Perm
      ((dashboardViews filters entities clinicalDates).pendingReview ++
        (dashboardViews filters entities clinicalDates).reviewedItems)
      (allData filters entities clinicalDates) ∧
    (∀ item ∈ (dashboardViews filters entities clinicalDates).pendingReview,
      item ∉ (dashboardViews filters entities clinicalDates).reviewedItems) ∧
    (∀ item : ReviewItem,
      item ∈ (dashboardViews filters entities clinicalDates).lowConfidence ↔
        item ∈ allData filters entities clinicalDates ∧
          item.confidence < 7/10) := by
  refine ⟨?_, ?_, ?_⟩
  · have h := List.filter_append_perm
      (fun item => decide (item.review_status = "pending"))
      (allData filters entities clinicalDates)
    simpa [dashboardViews, decide_not] using h
  · intro item hmem hmem2
    simp only [dashboardViews, List.mem_filter, decide_eq_true_eq] at hmem hmem2
    exact hmem2.2 hmem.2
  · intro item
    simp [dashboardViews, List.mem_filter]

/-- C5 witness — the common-subset theorem at a pending entity with
confidence 0.5 under the default filters: it is in `pendingReview`, hence
not in `reviewedItems`, and it is in `lowConfidence` since it belongs to
the filtered subset with confidence below 0.7. -/
theorem review_views_from_common_subset_witness :
    ReviewItem.entityItem
      { id := "ent-5w", type := "symptom", text := "Radiculopathy",
        icd10_code := none, confidence := 1/2, page := 4, position := (0, 0),
        manual_review_required := false, edited_by := none, edited_at := none,
        original_text := none, review_status := "pending" } ∉
      (dashboardViews allFilters
        [{ id := "ent-5w", type := "symptom", text := "Radiculopathy",
           icd10_code := none, confidence := 1/2, page := 4,
           position := (0, 0), manual_review_required := false,
           edited_by := none, edited_at := none, original_text := none,
           review_status := "pending" }] []).reviewedItems ∧
    ReviewItem.entityItem
      { id := "ent-5w", type := "symptom", text := "Radiculopathy",
        icd10_code := none, confidence := 1/2, page := 4, position := (0, 0),
        manual_review_required := false, edited_by := none, edited_at := none,
        original_text := none, review_status := "pending" } ∈
      (dashboardViews allFilters
        [{ id := "ent-5w", type := "symptom", text := "Radiculopathy",
           icd10_code := none, confidence := 1/2, page := 4,
           position := (0, 0), manual_review_required := false,
           edited_by := none, edited_at := none, original_text := none,
           review_status := "pending" }] []).lowConfidence := by
  refine ⟨?_, ?_⟩
  · exact (review_views_from_common_subset allFilters
      [{ id := "ent-5w", type := "symptom", text := "Radiculopathy",
         icd10_code := none, confidence := 1/2, page := 4,
         position := (0, 0), manual_review_required := false,
         edited_by := none, edited_at := none, original_text := none,
         review_status := "pending" }] []).2.1 _
      (by simp [dashboardViews, allData, entityPassesFilters, allFilters,
            ReviewItem.review_status])
  · exact ((review_views_from_common_subset allFilters
      [{ id := "ent-5w", type := "symptom", text := "Radiculopathy",
         icd10_code := none, confidence := 1/2, page := 4,
         position := (0, 0), manual_review_required := false,
         edited_by := none, edited_at := none, original_text := none,
         review_status := "pending" }] []).2.2 _).mpr
      (by constructor
          · simp [allData, entityPassesFilters, allFilters]
          · norm_num [ReviewItem.confidence])

/-- Record type `QAIssue` (QualityControlWorkflow.tsx, lines 16–23). -/
structure QAIssue where
  id : String
  type : String
  severity : String
  description : String
  suggested_action : String
  resolved : Bool
deriving DecidableEq

/-- Record type `QAStageStatus` (QualityControlWorkflow.tsx, lines 25–31). -/
structure QAStageStatus where
  stage : String
  status : String
  completed_at : Option String
  completed_by : Option String
  issues : List QAIssue
deriving DecidableEq

/-- Record type `QAStatus` (QualityControlWorkflow.tsx, lines 33–39). -/
structure QAStatus where
  current_stage : String
  stages : List QAStageStatus
  overall_completion : ℚ
  quality_score : ℚ
  issues_found : List QAIssue
deriving DecidableEq

/-- List `criticalIssues` (QualityControlWorkflow.tsx, lines 96–98): the
unresolved critical issues across the whole case (`issues_found` is the
flattened list of all issues of all stages). -/
def criticalIssues (qaStatus : QAStatus) : List QAIssue :=
  qaStatus.issues_found.filter
    (fun issue => issue.severity = "critical" ∧ issue.resolved = false)

/-- Function `handleAdvanceStage` (QualityControlWorkflow.tsx, lines 82–94): looks
up `current_stage` in the `stages` array (`findIndex`, `-1` when absent),
reads the stage after it, and invokes `onAdvanceStage` with it when it is
truthy.  The result is the stage passed to `onAdvanceStage`, or `none`
when `onAdvanceStage` is not invoked. -/
def handleAdvanceStage (qaStatus : QAStatus) : Option String :=
  let currentIndex : Int :=
    match qaStatus.stages.findIdx? (fun s => s.stage = qaStatus.current_stage) with
    | some i => (i : Int)
    | none => -1
  match qaStatus.stages[(currentIndex + 1).toNat]? with
  | some nextStage => if nextStage.stage ≠ "" then some nextStage.stage else none
  | none => none

/-- A click on the advance / final-approval button (QualityControlWorkflow
.tsx, lines 262–278): both buttons are `disabled` while
`criticalIssues.length > 0`, so a click runs `handleAdvanceStage` only
when there is no unresolved critical issue. -/
def advanceStageClick (qaStatus : QAStatus) : Option String :=
  if (criticalIssues qaStatus).length > 0 then none
  else handleAdvanceStage qaStatus

/-- The fixed five-stage order of the QA workflow (QualityControlWorkflow
.tsx, lines 9–14). -/
def qaStageOrder : List String :=
  ["data_extraction_review", "manual_validation", "clinical_review",
   "compliance_check", "final_approval"]

/-- The stage immediately following a given stage in the fixed five-stage
order (the comparison target named by the claims; `none` for the terminal
stage and for unknown stages). -/
def qaStageSuccessor : String → Option String
  | "data_extraction_review" => some "manual_validation"
  | "manual_validation" => some "clinical_review"
  | "clinical_review" => some "compliance_check"
  | "compliance_check" => some "final_approval"
  | _ => none

/-- C2 — Stage-gate blocking: for every `QAStatus` containing at least one
issue with severity `"critical"` and `resolved = false` anywhere in the
case-wide `issues_found` list, a click on the advance (or final-approval)
button invokes `onAdvanceStage` zero times, regardless of
`overall_completion`: the buttons are disabled and the component performs
no stage-status mutation. -/
theorem critical_issue_blocks_advance (qaStatus : QAStatus) (issue : QAIssue)
    (hmem : issue ∈ qaStatus.issues_found)
    (hsev : issue.severity = "critical") (hres : issue.resolved = false) :
    advanceStageClick qaStatus = none := by
  have hfilter : issue ∈ criticalIssues qaStatus := by
    simp [criticalIssues, List.mem_filter, hmem, hsev, hres]
  have hpos : 0 < (criticalIssues qaStatus).length :=
    List.length_pos_of_mem hfilter
  simp [advanceStageClick, hpos]

/-- C2 witness — a case whose flattened issue list holds one unresolved
critical compliance issue: clicking advance invokes nothing, even at 100%
overall completion. -/
theorem critical_issue_blocks_advance_witness :
    advanceStageClick
      { current_stage := "compliance_check"
        stages := []
        overall_completion := 100
        quality_score := 91
        issues_found := [{ id := "issue-1", type := "compliance",
                           severity := "critical",
                           description := "Missing consent form",
                           suggested_action := "Obtain signed consent",
                           resolved := false }] } = none :=
  critical_issue_blocks_advance
    { current_stage := "compliance_check"
      stages := []
      overall_completion := 100
      quality_score := 91
      issues_found := [{ id := "issue-1", type := "compliance",
                         severity := "critical",
                         description := "Missing consent form",
                         suggested_action := "Obtain signed consent",
                         resolved := false }] }
    { id := "issue-1", type := "compliance", severity := "critical",
      description := "Missing consent form",
      suggested_action := "Obtain signed consent", resolved := false }
    (List.mem_singleton.mpr rfl) rfl rfl

/-- C9 — Non-skippable ordered stage progression: for every `QAStatus`
whose `stages` list carries the fixed five-stage order and whose
`current_stage` is one of the stages but not the last one, the advance
action invokes `onAdvanceStage` with exactly the stage immediately
following `current_stage` in that order — never skipping a stage and
never targeting an earlier one. -/
theorem advance_targets_immediate_successor (qaStatus : QAStatus)
    (hstages : qaStatus.stages.map QAStageStatus.stage = qaStageOrder)
    (hmem : qaStatus.current_stage ∈ qaStageOrder)
    (hnot : qaStatus.current_stage ≠ "final_approval") :
    handleAdvanceStage qaStatus = qaStageSuccessor qaStatus.current_stage ∧
    (∃ next, qaStageSuccessor qaStatus.current_stage = some next) := by
  obtain ⟨cs, stages, oc, qs, issues⟩ := qaStatus
  simp only at hstages hmem hnot ⊢
  rcases stages with _ | ⟨s0, _ | ⟨s1, _ | ⟨s2, _ | ⟨s3, _ | ⟨s4, rest⟩⟩⟩⟩⟩ <;>
    simp [qaStageOrder] at hstages
  obtain ⟨h0, h1, h2, h3, h4, hrest⟩ := hstages
  subst hrest
  simp only [qaStageOrder, List.mem_cons, List.not_mem_nil, or_false] at hmem
  rcases hmem with rfl | rfl | rfl | rfl | rfl
  · refine ⟨?_, ⟨"manual_validation", rfl⟩⟩
    simp [handleAdvanceStage, List.findIdx?_cons, h0, h1, h2, h3, h4,
      qaStageSuccessor]
  · refine ⟨?_, ⟨"clinical_review", rfl⟩⟩
    simp [handleAdvanceStage, List.findIdx?_cons, h0, h1, h2, h3, h4,
      qaStageSuccessor]
  · refine ⟨?_, ⟨"compliance_check", rfl⟩⟩
    simp [handleAdvanceStage, List.findIdx?_cons, h0, h1, h2, h3, h4,
      qaStageSuccessor]
  · refine ⟨?_, ⟨"final_approval", rfl⟩⟩
    simp [handleAdvanceStage, List.findIdx?_cons, h0, h1, h2, h3, h4,
      qaStageSuccessor]
  · exact absurd rfl hnot

/-- The canonical five-stage status list used by the concrete QA
scenarios. -/
def sampleQAStages : List QAStageStatus :=
  [{ stage := "data_extraction_review", status := "completed",
     completed_at := some "2026-01-03T09:00:00.000Z",
     completed_by := some "dr-lee", issues := [] },
   { stage := "manual_validation", status := "in_progress",
     completed_at := none, completed_by := none, issues := [] },
   { stage := "clinical_review", status := "pending",
     completed_at := none, completed_by := none, issues := [] },
   { stage := "compliance_check", status := "pending",
     completed_at := none, completed_by := none, issues := [] },
   { stage := "final_approval", status := "pending",
     completed_at := none, completed_by := none, issues := [] }]

/-- C9 witness — advancing from `manual_validation` over the canonical
stage list targets exactly `clinical_review`. -/
theorem advance_targets_immediate_successor_witness :
    handleAdvanceStage
      { current_stage := "manual_validation", stages := sampleQAStages,
        overall_completion := 40, quality_score := 88,
        issues_found := [] } = some "clinical_review" := by
  have h := advance_targets_immediate_successor
    { current_stage := "manual_validation", stages := sampleQAStages,
      overall_completion := 40, quality_score := 88, issues_found := [] }
    (by simp [sampleQAStages, qaStageOrder])
    (by simp [qaStageOrder]) (by simp)
  rw [h.1]
  rfl

/-- C10 — Implicit: terminal-stage completion is a no-op.  For every
`QAStatus` whose `stages` list carries the fixed five-stage order and
whose `current_stage` is its last element `final_approval`, the Final
Approval button's handler invokes `onAdvanceStage` zero times —
`stages[currentIndex + 1]` is past the end — whether or not unresolved
critical issues exist (the gated click and the raw handler both do
nothing). -/
theorem final_approval_click_is_noop (qaStatus : QAStatus)
    (hstages : qaStatus.stages.map QAStageStatus.stage = qaStageOrder)
    (hcur : qaStatus.current_stage = "final_approval") :
    handleAdvanceStage qaStatus = none ∧ advanceStageClick qaStatus = none := by
  obtain ⟨cs, stages, oc, qs, issues⟩ := qaStatus
  simp only at hstages hcur ⊢
  subst hcur
  rcases stages with _ | ⟨s0, _ | ⟨s1, _ | ⟨s2, _ | ⟨s3, _ | ⟨s4, rest⟩⟩⟩⟩⟩ <;>
    simp [qaStageOrder] at hstages
  obtain ⟨h0, h1, h2, h3, h4, hrest⟩ := hstages
  subst hrest
  have hmain : handleAdvanceStage
      ⟨"final_approval", [s0, s1, s2, s3, s4], oc, qs, issues⟩ = none := by
    simp [handleAdvanceStage, List.findIdx?_cons, h0, h1, h2, h3, h4]
  refine ⟨hmain, ?_⟩
  unfold advanceStageClick
  split
  · rfl
  · exact hmain

/-- C10 witness — with the canonical stage list, current stage
`final_approval`, and an unresolved critical issue present, both the raw
handler and the gated click invoke nothing. -/
theorem final_approval_click_is_noop_witness :
    handleAdvanceStage
      { current_stage := "final_approval", stages := sampleQAStages,
        overall_completion := 100, quality_score := 95,
        issues_found := [{ id := "issue-2", type := "accuracy",
                           severity := "critical",
                           description := "Conflicting surgery dates",
                           suggested_action := "Re-check source documents",
                           resolved := false }] } = none ∧
    advanceStageClick
      { current_stage := "final_approval", stages := sampleQAStages,
        overall_completion := 100, quality_score := 95,
        issues_found := [{ id := "issue-2", type := "accuracy",
                           severity := "critical",
                           description := "Conflicting surgery dates",
                           suggested_action := "Re-check source documents",
                           resolved := false }] } = none :=
  final_approval_click_is_noop
    { current_stage := "final_approval", stages := sampleQAStages,
      overall_completion := 100, quality_score := 95,
      issues_found := [{ id := "issue-2", type := "accuracy",
                         severity := "critical",
                         description := "Conflicting surgery dates",
                         suggested_action := "Re-check source documents",
                         resolved := false }] }
    (by simp [sampleQAStages, qaStageOrder]) rfl

/-- Milliseconds per calendar day. -/
def msPerDay : Int := 86400000

/-- Record type `EditAuditLog` (StatCard.tsx bundle, lines 41–58).  `edited_at` is the
entry's timestamp as its epoch value in milliseconds (the ISO string fed to
`new Date(...)`); the untyped `old_value`/`new_value` payloads are
optional strings, irrelevant to grouping and ordering. -/
structure EditAuditLog where
  id : String
  case_id : String
  entity_type : String
  entity_id : String
  action_type : String
  field_name : String
  old_value : Option String
  new_value : Option String
  edit_reason : Option String
  edited_by : String
  user_name : String
  edited_at : Int
  confidence_before : Option ℚ
  confidence_after : Option ℚ
  ip_address : String
  user_agent : String
deriving DecidableEq

/-- Grouping key `new Date(t).toDateString()` as a grouping key: the viewer-local
calendar day of timestamp `t`, for a viewer whose local clock runs
`tzOffset` milliseconds ahead of UTC. -/
def localDay (tzOffset t : Int) : Int :=
  (t + tzOffset).fdiv msPerDay

/-- Day re-parse `new Date(dateKey).getTime()`: re-parsing a day key yields the epoch
timestamp of that day's local midnight. -/
def dayStart (tzOffset d : Int) : Int :=
  d * msPerDay - tzOffset

/-- One step of the `reduce` in `groupedLogs` (StatCard.tsx bundle, lines
92–99): `acc[dateKey].push(log)`, creating the key's bucket at the end of
the object's insertion order when absent. -/
def addToGroup (acc : List (Int × List EditAuditLog)) (k : Int)
    (log : EditAuditLog) : List (Int × List EditAuditLog) :=
  match acc with
  | [] => [(k, [log])]
  | (k0, ls) :: rest =>
      if k0 = k then (k0, ls ++ [log]) :: rest
      else (k0, ls) :: addToGroup rest k log

/-- Object `groupedLogs` (StatCard.tsx bundle, lines 92–99): buckets the audit
log by viewer-local calendar day, in first-occurrence key order
(JavaScript object insertion order, as `Object.entries` enumerates it). -/
def groupedLogs (tzOffset : Int) (auditLog : List EditAuditLog) :
    List (Int × List EditAuditLog) :=
  auditLog.foldl
    (fun acc log => addToGroup acc (localDay tzOffset log.edited_at) log) []

/-- Model of `array.sort((a, b) => keyOf b - keyOf a)`: stable descending sort by
an integer key, as insertion sort. -/
def insertByDesc {α : Type} (key : α → Int) (x : α) : List α → List α
  | [] => [x]
  | y :: ys => if key y < key x then x :: y :: ys else y :: insertByDesc key x ys

/-- Descending insertion sort by an integer key. -/
def sortByDesc {α : Type} (key : α → Int) : List α → List α
  | [] => []
  | x :: xs => insertByDesc key x (sortByDesc key xs)

/-- The rendered view (StatCard.tsx bundle, lines 112–127): the day
buckets sorted descending by the re-parsed day timestamp, each bucket's
entries sorted descending by entry timestamp. -/
def editHistoryView (tzOffset : Int) (auditLog : List EditAuditLog) :
    List (Int × List EditAuditLog) :=
  (sortByDesc (fun p => dayStart tzOffset p.1)
      (groupedLogs tzOffset auditLog)).map
    (fun p => (p.1, sortByDesc (fun log => log.edited_at) p.2))

theorem insertByDesc_perm {α : Type} (key : α → Int) (x : α) :
    ∀ l : List α, (insertByDesc key x l).Perm (x :: l) := by
  intro l
  induction l with
  | nil => simp [insertByDesc]
  | cons y ys ih =>
      by_cases h : key y < key x
      · simp [insertByDesc, h]
      · simp only [insertByDesc, if_neg h]
        exact ((ih.cons y).trans (List.Perm.swap x y ys))

theorem mem_insertByDesc {α : Type} (key : α → Int) (x : α) (l : List α)
    (z : α) : z ∈ insertByDesc key x l ↔ z = x ∨ z ∈ l := by
  rw [(insertByDesc_perm key x l).mem_iff, List.mem_cons]

theorem insertByDesc_sorted {α : Type} (key : α → Int) (x : α) :
    ∀ l : List α, l.Pairwise (fun a b => key b ≤ key a) →
      (insertByDesc key x l).Pairwise (fun a b => key b ≤ key a) := by
  intro l
  induction l with
  | nil => simp [insertByDesc]
  | cons y ys ih =>
      intro hs
      rw [List.pairwise_cons] at hs
      by_cases h : key y < key x
      · rw [insertByDesc, if_pos h, List.pairwise_cons]
        refine ⟨?_, List.pairwise_cons.mpr hs⟩
        intro z hz
        rcases List.mem_cons.mp hz with rfl | hz2
        · exact le_of_lt h
        · exact le_trans (hs.1 z hz2) (le_of_lt h)
      · rw [insertByDesc, if_neg h, List.pairwise_cons]
        refine ⟨?_, ih hs.2⟩
        intro z hz
        rcases (mem_insertByDesc key x ys z).mp hz with rfl | hz2
        · exact le_of_not_lt h
        · exact hs.1 z hz2

theorem sortByDesc_perm {α : Type} (key : α → Int) :
    ∀ l : List α, (sortByDesc key l).Perm l := by
  intro l
  induction l with
  | nil => simp [sortByDesc]
  | cons x xs ih =>
      exact (insertByDesc_perm key x (sortByDesc key xs)).trans (ih.cons x)

theorem sortByDesc_sorted {α : Type} (key : α → Int) :
    ∀ l : List α, (sortByDesc key l).Pairwise (fun a b => key b ≤ key a) := by
  intro l
  induction l with
  | nil => simp [sortByDesc]
  | cons x xs ih => exact insertByDesc_sorted key x (sortByDesc key xs) ih

/-- Every bucket of the accumulator holds only entries of its own
viewer-local day. -/
def GroupsKeyed (tzOffset : Int) (acc : List (Int × List EditAuditLog)) :
    Prop :=
  ∀ p ∈ acc, ∀ log ∈ p.2, localDay tzOffset log.edited_at = p.1

theorem addToGroup_keys (k : Int) (log : EditAuditLog) :
    ∀ acc : List (Int × List EditAuditLog),
      (addToGroup acc k log).map Prod.fst =
        if k ∈ acc.map Prod.fst then acc.map Prod.fst
        else acc.map Prod.fst ++ [k] := by
  intro acc
  induction acc with
  | nil => simp [addToGroup]
  | cons p rest ih =>
      obtain ⟨k0, ls⟩ := p
      by_cases h : k0 = k
      · subst h
        simp [addToGroup]
      · have hne : ¬ k = k0 := fun hk => h hk.symm
        by_cases hm : k ∈ rest.map Prod.fst <;>
          simp [addToGroup, h, ih, hm, hne]

theorem addToGroup_keys_nodup (k : Int) (log : EditAuditLog)
    (acc : List (Int × List EditAuditLog))
    (h : (acc.map Prod.fst).Nodup) :
    ((addToGroup acc k log).map Prod.fst).Nodup := by
  rw [addToGroup_keys]
  by_cases hm : k ∈ acc.map Prod.fst
  · simpa [hm] using h
  · simp [hm, List.nodup_append, h]

theorem addToGroup_flatten_perm (k : Int) (log : EditAuditLog) :
    ∀ acc : List (Int × List EditAuditLog),
      (((addToGroup acc k log).map Prod.snd).flatten).Perm
        ((acc.map Prod.snd).flatten ++ [log]) := by
  intro acc
  induction acc with
  | nil => simp [addToGroup]
  | cons p rest ih =>
      obtain ⟨k0, ls⟩ := p
      by_cases h : k0 = k
      · subst h
        simp only [addToGroup, if_true, eq_self_iff_true, List.map_cons,
          List.flatten_cons, List.append_assoc, List.singleton_append]
        exact List.Perm.append_left ls
          (@List.perm_append_comm _ [log] ((rest.map Prod.snd).flatten))
      · simp only [addToGroup, if_neg h, List.map_cons, List.flatten_cons,
          List.append_assoc]
        exact List.Perm.append_left ls ih

theorem addToGroup_keyed (tzOffset k : Int) (log : EditAuditLog)
    (hk : localDay tzOffset log.edited_at = k) :
    ∀ acc : List (Int × List EditAuditLog), GroupsKeyed tzOffset acc →
      GroupsKeyed tzOffset (addToGroup acc k log) := by
  intro acc
  induction acc with
  | nil =>
      intro _ p hp y hy
      simp only [addToGroup, List.mem_singleton] at hp
      subst hp
      simp only [List.mem_singleton] at hy
      subst hy
      exact hk
  | cons q rest ih =>
      intro hacc p hp y hy
      obtain ⟨k0, ls⟩ := q
      have hhead : ∀ z ∈ ls, localDay tzOffset z.edited_at = k0 :=
        fun z hz => hacc (k0, ls) (List.mem_cons_self _ _) z hz
      have htail : GroupsKeyed tzOffset rest :=
        fun r hr z hz => hacc r (List.mem_cons_of_mem _ hr) z hz
      by_cases h : k0 = k
      · subst h
        rw [addToGroup, if_pos rfl] at hp
        rcases List.mem_cons.mp hp with rfl | hp2
        · rcases List.mem_append.mp hy with hy1 | hy2
          · exact hhead y hy1
          · simp only [List.mem_singleton] at hy2
            subst hy2
            exact hk
        · exact htail p hp2 y hy
      · rw [addToGroup, if_neg h] at hp
        rcases List.mem_cons.mp hp with rfl | hp2
        · exact hhead y hy
        · exact ih htail p hp2 y hy

theorem groupedLogs_go_keyed (tzOffset : Int) :
    ∀ (logs : List EditAuditLog) (acc : List (Int × List EditAuditLog)),
      GroupsKeyed tzOffset acc →
      GroupsKeyed tzOffset (logs.foldl
        (fun acc log => addToGroup acc (localDay tzOffset log.edited_at) log)
        acc) := by
  intro logs
  induction logs with
  | nil => intro acc hacc; exact hacc
  | cons x xs ih =>
      intro acc hacc
      exact ih _ (addToGroup_keyed tzOffset _ x rfl acc hacc)

theorem groupedLogs_go_nodup (tzOffset : Int) :
    ∀ (logs : List EditAuditLog) (acc : List (Int × List EditAuditLog)),
      (acc.map Prod.fst).Nodup →
      ((logs.foldl
        (fun acc log => addToGroup acc (localDay tzOffset log.edited_at) log)
        acc).map Prod.fst).Nodup := by
  intro logs
  induction logs with
  | nil => intro acc hacc; exact hacc
  | cons x xs ih =>
      intro acc hacc
      exact ih _ (addToGroup_keys_nodup _ x acc hacc)

theorem groupedLogs_go_flatten (tzOffset : Int) :
    ∀ (logs : List EditAuditLog) (acc : List (Int × List EditAuditLog)),
      (((logs.foldl
        (fun acc log => addToGroup acc (localDay tzOffset log.edited_at) log)
        acc).map Prod.snd).flatten).Perm ((acc.map Prod.snd).flatten ++ logs) := by
  intro logs
  induction logs with
  | nil => intro acc; simp
  | cons x xs ih =>
      intro acc
      have step := addToGroup_flatten_perm (localDay tzOffset x.edited_at) x acc
      have h1 := ih (addToGroup acc (localDay tzOffset x.edited_at) x)
      refine h1.trans ?_
      have h2 := step.append_right xs
      rw [List.append_assoc, List.singleton_append] at h2
      exact h2

theorem flatten_map_sortByDesc_perm (key : EditAuditLog → Int) :
    ∀ l : List (Int × List EditAuditLog),
      ((l.map (fun p => sortByDesc key p.2)).flatten).Perm
        ((l.map Prod.snd).flatten) := by
  intro l
  induction l with
  | nil => simp
  | cons p rest ih =>
      simp only [List.map_cons, List.flatten_cons]
      exact (sortByDesc_perm key p.2).append ih

/-- C8 — Audit trail grouping and ordering: for every viewer UTC offset
and list of audit entries, the rendered history partitions the entries by
viewer-local calendar day — the day keys are strictly descending (so each
day occurs as exactly one group), every entry of a group belongs to that
group's day, the flattened groups are a permutation of the input (so every
input entry appears in exactly one group, with multiplicity) — and within
each day group the entries are sorted descending by timestamp. -/
theorem audit_view_groups_and_sorts (tzOffset : Int)
    (auditLog : List EditAuditLog) :
    ((editHistoryView tzOffset auditLog).map Prod.fst).Pairwise
      (fun a b => b < a) ∧
    (∀ p ∈ editHistoryView tzOffset auditLog, ∀ log ∈ p.2,
      localDay tzOffset log.edited_at = p.1) ∧
    (∀ p ∈ editHistoryView tzOffset auditLog,
      p.2.Pairwise (fun a b => b.edited_at ≤ a.edited_at)) ∧
    (((editHistoryView tzOffset auditLog).map Prod.snd).flatten).Perm
      auditLog := by
  have hgkeyed : GroupsKeyed tzOffset (groupedLogs tzOffset auditLog) :=
    groupedLogs_go_keyed tzOffset auditLog [] (by intro p hp; simp at hp)
  have hgnodup : ((groupedLogs tzOffset auditLog).map Prod.fst).Nodup :=
    groupedLogs_go_nodup tzOffset auditLog [] (by simp)
  have hgflat : (((groupedLogs tzOffset auditLog).map Prod.snd).flatten).Perm
      auditLog := by
    have h := groupedLogs_go_flatten tzOffset auditLog []
    simpa using h
  have hsperm : (sortByDesc (fun p => dayStart tzOffset p.1)
      (groupedLogs tzOffset auditLog)).Perm (groupedLogs tzOffset auditLog) :=
    sortByDesc_perm _ _
  have hfst : (editHistoryView tzOffset auditLog).map Prod.fst =
      (sortByDesc (fun p => dayStart tzOffset p.1)
        (groupedLogs tzOffset auditLog)).map Prod.fst := by
    simp [editHistoryView, List.map_map, Function.comp]
  have hsnd : (editHistoryView tzOffset auditLog).map Prod.snd =
      (sortByDesc (fun p => dayStart tzOffset p.1)
        (groupedLogs tzOffset auditLog)).map
        (fun p => sortByDesc (fun log => log.edited_at) p.2) := by
    simp [editHistoryView, List.map_map, Function.comp]
  refine ⟨?_, ?_, ?_, ?_⟩
  · have hsorted := sortByDesc_sorted (fun p => dayStart tzOffset p.1)
      (groupedLogs tzOffset auditLog)
    have hle : ((editHistoryView tzOffset auditLog).map Prod.fst).Pairwise
        (fun a b => b ≤ a) := by
      rw [hfst, List.pairwise_map]
      refine hsorted.imp ?_
      intro a b hab
      have h1 : dayStart tzOffset b.1 ≤ dayStart tzOffset a.1 := hab
      simp only [dayStart, msPerDay] at h1
      omega
    have hnodup : ((editHistoryView tzOffset auditLog).map Prod.fst).Nodup := by
      rw [hfst]
      exact ((hsperm.map Prod.fst).nodup_iff).mpr hgnodup
    have hcomb := hle.and hnodup
    refine hcomb.imp ?_
    intro a b hab
    exact lt_of_le_of_ne hab.1 (fun h => hab.2 h.symm)
  · intro p hp log hlog
    simp only [editHistoryView, List.mem_map] at hp
    obtain ⟨q, hq, rfl⟩ := hp
    have hqg : q ∈ groupedLogs tzOffset auditLog := hsperm.mem_iff.mp hq
    have hlog2 : log ∈ q.2 :=
      ((sortByDesc_perm (fun log => log.edited_at) q.2).mem_iff).mp hlog
    exact hgkeyed q hqg log hlog2
  · intro p hp
    simp only [editHistoryView, List.mem_map] at hp
    obtain ⟨q, hq, rfl⟩ := hp
    exact sortByDesc_sorted (fun log => log.edited_at) q.2
  · rw [hsnd]
    refine (flatten_map_sortByDesc_perm (fun log => log.edited_at)
      (sortByDesc (fun p => dayStart tzOffset p.1)
        (groupedLogs tzOffset auditLog))).trans ?_
    exact ((hsperm.map Prod.snd).flatten).trans hgflat

/-- Two concrete audit entries on different viewer-local days (UTC
viewer): 25h and 1h after the epoch. -/
def sampleAuditLogA : EditAuditLog :=
  { id := "log-1", case_id := "case-1", entity_type := "medical_entity",
    entity_id := "ent-1", action_type := "update", field_name := "text",
    old_value := some "Hypertension",
    new_value := some "Essential Hypertension", edit_reason := none,
    edited_by := "user-1", user_name := "Dr. Lee", edited_at := 90000000,
    confidence_before := none, confidence_after := none,
    ip_address := "10.0.0.1", user_agent := "TestBrowser" }

def sampleAuditLogB : EditAuditLog :=
  { id := "log-2", case_id := "case-1", entity_type := "clinical_date",
    entity_id := "date-1", action_type := "create", field_name := "date",
    old_value := none, new_value := some "2024-02-14", edit_reason := none,
    edited_by := "user-1", user_name := "Dr. Lee", edited_at := 3600000,
    confidence_before := none, confidence_after := none,
    ip_address := "10.0.0.1", user_agent := "TestBrowser" }

/-- C8 witness — the grouping theorem at a UTC viewer and the two sample
entries: the entry of day 1 is keyed to its group's day, and the flattened
view is a permutation of the input. -/
theorem audit_view_groups_and_sorts_witness :
    localDay 0 sampleAuditLogA.edited_at = 1 ∧
    (((editHistoryView 0 [sampleAuditLogA, sampleAuditLogB]).map
      Prod.snd).flatten).Perm [sampleAuditLogA, sampleAuditLogB] := by
  refine ⟨?_, (audit_view_groups_and_sorts 0
    [sampleAuditLogA, sampleAuditLogB]).2.2.2⟩
  exact (audit_view_groups_and_sorts 0
    [sampleAuditLogA, sampleAuditLogB]).2.1 (1, [sampleAuditLogA])
    (by decide) sampleAuditLogA (by decide)
